import Mathlib

/-!
Verification of the EV charging-station ETL pipeline
(`etl_pipeline.py`, `database.py`) against its specification.

The Python source is shallowly embedded: DataFrame columns become fields of
typed records, the mutable geocoding cache becomes explicit state passing,
the SQLite connection becomes a `DbState` with a committed snapshot and an
open-transaction (pending) snapshot, and the two external collaborators
(reverse-geocoding service, listing API) become oracle parameters.
-/

set_option autoImplicit false

namespace EvPipeline

/-! ## Operator classification (etl_pipeline.py, lines 132-146)

The transform lowercases the `operator` column and then runs four sequential
`df.loc[...] = ...` assignments *on the already-mutated column*:
substring match "tesla" -> "Tesla", then "bp" -> "BP", then "shell" ->
"Shell" (each `str.contains` check reads the current column contents and is
case-sensitive, matching pandas defaults), and finally every row whose
current value is not in the lowercase list `["tesla", "bp", "shell"]` is
overwritten with "Other".
-/

/-- Python's substring test `needle in hay` on lists of characters. -/
def listContainsSub (needle : List Char) : List Char → Bool
  | [] => needle.isPrefixOf []
  | c :: rest => needle.isPrefixOf (c :: rest) || listContainsSub needle rest

/-- Python's `needle in hay` on strings, as used by `Series.str.contains`
with a plain-letter pattern (regex metacharacters absent). -/
def strContains (hay needle : String) : Bool :=
  listContainsSub needle.data hay.data

/-- Line 137: `df.loc[df["operator_clean"].str.contains("tesla"), ...] = "Tesla"`. -/
def afterTesla (c : String) : String :=
  if strContains c "tesla" then "Tesla" else c

/-- Line 140: `df.loc[df["operator_clean"].str.contains("bp"), ...] = "BP"`;
the mask is computed on the column as mutated by the previous assignment. -/
def afterBP (c : String) : String :=
  if strContains c "bp" then "BP" else c

/-- Line 143: `df.loc[df["operator_clean"].str.contains("shell"), ...] = "Shell"`. -/
def afterShell (c : String) : String :=
  if strContains c "shell" then "Shell" else c

/-- Line 146: `df.loc[~df["operator_clean"].isin(["tesla", "bp", "shell"]), ...] = "Other"`.
`isin` is an exact, case-sensitive membership test against the *lowercase*
literals, applied to the column as mutated by the three assignments above. -/
def isinFinal (c : String) : String :=
  if c = "tesla" ∨ c = "bp" ∨ c = "shell" then c else "Other"

/-- Lines 134-146: the per-row value of `operator_clean` produced by
`transform_stations` for a row with raw operator string `op`. -/
def operatorClean (op : String) : String :=
  isinFinal (afterShell (afterBP (afterTesla op.toLower)))

/-! ## Geocoding resolver and cache (etl_pipeline.py, lines 151-208)

`geocode_cache` is a Python dict persisted as JSON.  Keys are the
3-decimal-rounded coordinate strings `f"{lat:.3f},{lon:.3f}"`; since every
claim is about behaviour at a given rounded key, coordinates are carried as
integer thousandths of a degree and the key is their rendered pair.  The
dict is embedded as an insertion-ordered association list (entries are only
ever added, on cache miss, so keys stay distinct).  The durable copy written
by `json.dump` is the `disk` field; the number of `geolocator.reverse`
network calls issued is counted in `lookups`.  The reverse-geocoding service
is an oracle: one `GeoOutcome` per lookup.
-/

/-- Outcome of one `geolocator.reverse` network call: either some exception
(timeout, no result, malformed response, ...) or a raw address object with
optional "city" and "town" attributes. -/
inductive GeoOutcome where
  | fail : GeoOutcome
  | found (city town : Option String) : GeoOutcome
deriving DecidableEq, Repr

/-- State threaded through `get_city_cached`: the in-memory dict, the last
snapshot written to the cache file, and the number of network lookups
issued so far in this run. -/
structure GeoState where
  cache : List (String × String)
  disk : List (String × String)
  lookups : Nat
deriving DecidableEq, Repr

/-- Python dict lookup `cache[key]` / `key in cache` on the association
list (first match; keys are distinct by construction). -/
def lookupC (m : List (String × String)) (k : String) : Option String :=
  match m with
  | [] => none
  | p :: rest => if p.1 = k then some p.2 else lookupC rest k

/-- Line 166: the cache key `f"{lat:.3f},{lon:.3f}"`, with the coordinates
already carried at thousandth-of-a-degree precision. -/
def cacheKey (lat lon : Int) : String :=
  toString lat ++ "," ++ toString lon

/-- Lines 164-195: `get_city_cached(lat, lon)`.  On a hit the cached value
is returned with no network call.  On a miss one lookup is issued; a
successful lookup extracts `address.get("city", address.get("town",
"Unknown"))`, caches it, and dumps the whole cache to the file when the new
total size is a multiple of 50 (line 186); any exception is caught, caches
"Unknown", and returns "Unknown" without any flush check (lines 192-195). -/
def get_city_cached (st : GeoState) (key : String) (outcome : GeoOutcome) :
    String × GeoState :=
  match lookupC st.cache key with
  | some v => (v, st)
  | none =>
    match outcome with
    | .found city town =>
      let c := city.getD (town.getD "Unknown")
      let cache := st.cache ++ [(key, c)]
      if cache.length % 50 = 0 then
        (c, { cache := cache, disk := cache, lookups := st.lookups + 1 })
      else
        (c, { cache := cache, disk := st.disk, lookups := st.lookups + 1 })
    | .fail =>
      ("Unknown",
       { cache := st.cache ++ [(key, "Unknown")], disk := st.disk,
         lookups := st.lookups + 1 })

/-- Lines 200-203: `df.apply(lambda row: get_city_cached(...), axis=1)` —
resolve each row's key in input order, threading the cache state. -/
def geocodeFold (st : GeoState) : List (String × GeoOutcome) →
    List String × GeoState
  | [] => ([], st)
  | r :: rest =>
    let p := get_city_cached st r.1 r.2
    let q := geocodeFold p.2 rest
    (p.1 :: q.1, q.2)

/-- Lines 205-207: the unconditional `json.dump(geocode_cache, f)` at the
end of a transform pass. -/
def endFlush (st : GeoState) : GeoState :=
  { st with disk := st.cache }

/-- Every entry of the durable snapshot is present (with the same value) in
the in-memory cache — the basic relation between `disk` and `cache` that
holds whenever `disk` was written by a dump of a previous `cache`. -/
def diskSub (st : GeoState) : Prop :=
  ∀ k v, lookupC st.disk k = some v → lookupC st.cache k = some v

/-- Concrete transform pass exercising the flush logic: 50 fresh rounded
coordinates, the first 49 resolving successfully and the 50th failing. -/
def flushRun : List (String × GeoOutcome) :=
  (List.range 50).map
    (fun i => (toString i, if i < 49 then GeoOutcome.found (some "X") none
                           else GeoOutcome.fail))

/-! ## Cache file load at startup (etl_pipeline.py, lines 151-158) -/

/-- Contents of an existing `geocoding_cache.json`: either valid JSON
(deserializing to the entry list) or malformed text. -/
inductive CacheFile where
  | valid (entries : List (String × String)) : CacheFile
  | malformed : CacheFile
deriving DecidableEq, Repr

/-- The external `json.load`: returns the parsed object, or raises
`json.decoder.JSONDecodeError` on malformed contents. -/
def jsonLoad : CacheFile → Except String (List (String × String))
  | .valid entries => .ok entries
  | .malformed => .error "json.decoder.JSONDecodeError"

/-- Lines 151-158: `if os.path.exists(cache_file): geocode_cache =
json.load(f) else: geocode_cache = \x7b\x7d`.  The file-system state is
`none` when the file is missing.  `json.load` is not wrapped in any
`try`/`except`, so its exception propagates. -/
def loadGeocodeCache (file : Option CacheFile) :
    Except String (List (String × String)) :=
  match file with
  | some f => jsonLoad f
  | none => .ok []

/-! ## Station records and the transform (etl_pipeline.py, lines 79-94 and 116-228) -/

/-- Raw station object from one page of the listing API, with the nested
fields the mapping on lines 81-91 reads.  `ID`, `AddressInfo.Title`,
`.Latitude`, `.Longitude`, `.AddressLine1` are required; `OperatorInfo.Title`
and the two date fields are optional (`dict.get`).  Coordinates are carried
at the cache-key precision (thousandths of a degree). -/
structure RawStation where
  ID : Nat
  title : String
  lat : Int
  lon : Int
  addressLine1 : String
  operatorTitle : Option String
  dateLastConfirmed : Option String
  dateLastStatusUpdate : Option String
deriving DecidableEq, Repr

/-- Extracted record (the `station_info` dict built on lines 81-91). -/
structure StationInfo where
  id : Nat
  name : String
  latitude : Int
  longitude : Int
  address : String
  operator : String
  last_updated : String
deriving DecidableEq, Repr

/-- Python `a or b` on optional strings: `None` and `""` are falsy. -/
def pyOrStr (a b : Option String) : Option String :=
  match a with
  | some s => if s = "" then b else some s
  | none => b

/-- Lines 81-91: build `station_info` from one raw API object.
`operator` defaults to "Unknown"; `last_updated` is
`DateLastConfirmed or DateLastStatusUpdate or "Unknown"`. -/
def mapStation (s : RawStation) : StationInfo :=
  { id := s.ID, name := s.title, latitude := s.lat, longitude := s.lon,
    address := s.addressLine1,
    operator := s.operatorTitle.getD "Unknown",
    last_updated :=
      (pyOrStr s.dateLastConfirmed (pyOrStr s.dateLastStatusUpdate none)).getD
        "Unknown" }

/-- Fully transformed record (the DataFrame row after `transform_stations`).
`last_updated` holds the `pd.to_datetime(..., errors='coerce')` result as a
day number, `none` standing for `NaT` (absent or unparseable). -/
structure NormalizedStation where
  id : Nat
  name : String
  latitude : Int
  longitude : Int
  address : String
  operator : String
  operator_clean : String
  city : String
  last_updated : Option Int
  days_since_update : Option Int
  is_offline : Bool
deriving DecidableEq, Repr

/-- Line 129: `df.drop_duplicates(subset=["id"])` — keep the first
occurrence of each identifier. -/
def dedupById : List StationInfo → List StationInfo :=
  go []
where
  go (seen : List Nat) : List StationInfo → List StationInfo
    | [] => []
    | r :: rest =>
      if seen.contains r.id then go seen rest
      else r :: go (r.id :: seen) rest

/-- Line 220: `(today - last_updated).dt.days` — whole days between the
transform-start timestamp and the parsed update time; `NaT` propagates to
an undefined (`NaN`) day count. -/
def daysSinceUpdate (today : Int) (parsed : Option Int) : Option Int :=
  parsed.map (fun t => today - t)

/-- Line 223: `df["is_offline"] = df["days_since_update"] > 90`.  In pandas
the comparison of an undefined (`NaN`) day count with 90 is `False`. -/
def isOffline (days : Option Int) : Bool :=
  match days with
  | some n => decide (90 < n)
  | none => false

/-- Lines 116-228: `transform_stations`.  The input DataFrame is
`pd.DataFrame(all_stations)` (line 108): built from zero records it has no
columns at all, so the first column access — `drop_duplicates(subset=["id"])`
on line 129 — raises `KeyError` for the missing `id` column (and
`df["operator"]` on line 134 would likewise fail); the error propagates out
of the transform.  With at least one record the columns exist and the steps
are: deduplicate by id, classify the operator, resolve each row's city
through the cache in input order, parse `last_updated` (the external
`pd.to_datetime` parser is the oracle `parse`; `none` is `NaT`), compute
day counts against the single `today` captured at line 217, flag offline
rows, and write the final cache dump of lines 205-207, returning the
normalized rows and the final cache state. -/
def transform_stations (geo : String → GeoOutcome) (parse : String → Option Int)
    (today : Int) (st : GeoState) (df : List StationInfo) :
    Except String (List NormalizedStation × GeoState) :=
  if df.isEmpty then Except.error "KeyError: id"
  else
    let df1 := dedupById df
    let rows := df1.map (fun r => (cacheKey r.latitude r.longitude,
                                   geo (cacheKey r.latitude r.longitude)))
    let folded := geocodeFold st rows
    let out := (df1.zip folded.1).map (fun rc =>
      let parsed := parse rc.1.last_updated
      let days := daysSinceUpdate today parsed
      { id := rc.1.id, name := rc.1.name, latitude := rc.1.latitude,
        longitude := rc.1.longitude, address := rc.1.address,
        operator := rc.1.operator,
        operator_clean := operatorClean rc.1.operator,
        city := rc.2, last_updated := parsed,
        days_since_update := days, is_offline := isOffline days })
    Except.ok (out, endFlush folded.2)

/-! ## Extraction (etl_pipeline.py, lines 17-110) -/

/-- Response to one listing-API page request: a non-success status code
(line 58), a successful status with an empty body (line 64), or a JSON
array of station objects. -/
inductive ApiResp where
  | err (code : Nat) : ApiResp
  | emptyBody : ApiResp
  | ok (data : List RawStation) : ApiResp

/-- Line 100: Python truthiness of `if max_pages and page >= max_pages`
(`None` and `0` are both falsy). -/
def pageCapReached (maxPages : Option Nat) (page : Nat) : Bool :=
  match maxPages with
  | some m => decide (0 < m) && decide (m ≤ page)
  | none => false

/-- Lines 39-105: the `while True` pagination loop.  `api` is the remote
listing service as a function of the `skip` offset; `log` records the
offset of every request issued.  A non-success status raises (line 61); an
empty body or an empty JSON array breaks with the records accumulated so
far (lines 64-74); otherwise the page's records are mapped and appended,
the offset advances by the 500-record page size (line 97), and the optional
page cap is checked (line 100).  `fuel` bounds the unbounded source loop;
exhausting it marks a run that never terminates. -/
def extractLoop (api : Nat → ApiResp) (maxPages : Option Nat) :
    Nat → Nat → Nat → List StationInfo → List Nat →
    Except String (List StationInfo × List Nat)
  | 0, _, _, _, _ => .error "loop does not terminate"
  | fuel + 1, skip, page, acc, log =>
    let page' := page + 1
    let log' := log ++ [skip]
    match api skip with
    | .err code => .error ("API request failed with status code " ++ toString code)
    | .emptyBody => .ok (acc, log')
    | .ok data =>
      if data.length = 0 then .ok (acc, log')
      else
        let acc' := acc ++ data.map mapStation
        let skip' := skip + 500
        if pageCapReached maxPages page' then .ok (acc', log')
        else extractLoop api maxPages fuel skip' page' acc' log'

/-- Lines 17-110: `extract_charging_stations(max_pages)` — run the
pagination loop from offset 0, returning the accumulated records and the
log of offsets requested. -/
def extract_charging_stations (api : Nat → ApiResp) (maxPages : Option Nat)
    (fuel : Nat) : Except String (List StationInfo × List Nat) :=
  extractLoop api maxPages fuel 0 0 [] []

/-- A raw station with identifier `n` and fixed filler fields, for the
mocked listing API. -/
def mkRaw (n : Nat) : RawStation :=
  { ID := n, title := "S", lat := 0, lon := 0, addressLine1 := "A",
    operatorTitle := none, dateLastConfirmed := none,
    dateLastStatusUpdate := none }

/-- Mocked listing API of the pagination-termination scenario: 500 records
at offset 0, 500 more at offset 500, and an empty page at every later
offset. -/
def mockApi (skip : Nat) : ApiResp :=
  if skip = 0 then .ok ((List.range 500).map mkRaw)
  else if skip = 500 then .ok ((List.range 500).map (fun i => mkRaw (500 + i)))
  else .ok []

/-! ## Loader (database.py, lines 66-96)

`load_to_db` runs on one `sqlite3` connection: `conn.execute("DELETE FROM
stations WHERE id IN (...)", ids)` followed by `df.to_sql("stations", conn,
if_exists="append")` and `conn.commit()`.  The embedding models the
connection as a committed snapshot plus the pending view of the implicit
open transaction (Python's `sqlite3` opens a transaction at the first DML
statement and keeps it open until commit/rollback):

* the DELETE mutates only the pending view; SQLite accepts an empty IN
  list (`id IN ()` is an empty-set membership test matching nothing), so
  an empty batch deletes nothing;
* `df.to_sql` (pandas `SQLiteDatabase.run_transaction`) appends the batch
  rows and commits the connection on success, and on any insert failure
  calls `conn.rollback()` — discarding the whole open transaction, the
  DELETE included — and re-raises;
* `conn.commit()` then makes the success path durable (a no-op after the
  pandas commit).
-/

/-- State of the SQLite `stations` table as seen through one connection:
the durable committed rows and the pending view of the open transaction
(equal to `committed` when no transaction is open). -/
structure DbState where
  committed : List NormalizedStation
  pending : List NormalizedStation
deriving DecidableEq, Repr

/-- Lines 80-81: `DELETE FROM stations WHERE id IN (?,...,?)` applied to a
row list. -/
def deleteIds (ids : List Nat) (rows : List NormalizedStation) :
    List NormalizedStation :=
  rows.filter (fun r => !(ids.contains r.id))

/-- Lines 66-96: `load_to_db(df, conn)`.  `insertFails` is the external
write-failure oracle for the insert step (the StorageError case).  The
DELETE with the batch's id list runs first (SQLite accepts the rendered
`id IN ()` of an empty batch, deleting nothing), then the insert appends
the batch rows and commits, or fails and rolls the open transaction back.
Returns the connection state after the call together with the raised
error, if any. -/
def load_to_db (st : DbState) (df : List NormalizedStation)
    (insertFails : Bool) : DbState × Option String :=
  let ids := df.map (fun r => r.id)
  let pending := deleteIds ids st.pending
  if insertFails then
    ({ committed := st.committed, pending := st.committed },
     some "StorageError")
  else
    let p := pending ++ df
    ({ committed := p, pending := p }, none)

/-- A normalized station with identifier `n` and fixed filler fields, for
concrete witnesses. -/
def sampleStation (n : Nat) : NormalizedStation :=
  { id := n, name := "s", latitude := 0, longitude := 0, address := "a",
    operator := "o", operator_clean := "Other", city := "Unknown",
    last_updated := none, days_since_update := none, is_offline := false }

/-! ## Theorems -/

set_option maxRecDepth 100000

/-- Membership in a `Nat` list gives a positive `contains` test. -/
theorem contains_of_mem {a : Nat} {l : List Nat} (h : a ∈ l) :
    l.contains a = true := by
  induction l with
  | nil => cases h
  | cons b t ih =>
    cases h with
    | head => simp [List.contains]
    | tail _ hm =>
      simp [List.contains]
      exact Or.inr hm

/-- Filtering a list twice with the same predicate equals filtering once. -/
theorem filter_idem {α : Type} (p : α → Bool) (l : List α) :
    (l.filter p).filter p = l.filter p := by
  induction l with
  | nil => rfl
  | cons x t ih =>
    cases hp : p x with
    | true =>
      rw [List.filter_cons_of_pos hp, List.filter_cons_of_pos hp, ih]
    | false =>
      rw [List.filter_cons_of_neg (by simp [hp]), ih]

/-- Deleting a set of ids twice is the same as deleting it once. -/
theorem deleteIds_idem (ids : List Nat) (rows : List NormalizedStation) :
    deleteIds ids (deleteIds ids rows) = deleteIds ids rows :=
  filter_idem _ rows

/-- Deleting an empty id set keeps every row. -/
theorem deleteIds_nil (rows : List NormalizedStation) :
    deleteIds [] rows = rows := by
  induction rows with
  | nil => rfl
  | cons r t ih =>
    show r :: deleteIds [] t = r :: t
    rw [ih]

/-- Deleting distributes over append. -/
theorem deleteIds_append (ids : List Nat) (a b : List NormalizedStation) :
    deleteIds ids (a ++ b) = deleteIds ids a ++ deleteIds ids b := by
  simp [deleteIds, List.filter_append]

/-- Deleting a batch's own ids from the batch removes every row. -/
theorem deleteIds_self (df : List NormalizedStation) :
    deleteIds (df.map (fun r => r.id)) df = [] := by
  rw [deleteIds, List.filter_eq_nil_iff]
  intro r hr
  simp
  exact ⟨r, hr, rfl⟩

/-- Every raw operator string classifies as "Other": the three substring
assignments write the capitalized values "Tesla"/"BP"/"Shell", and a row
they leave untouched cannot equal any of the lowercase literals either,
so the final `isin` guard matches no row and overwrites all of them. -/
theorem operatorClean_eq_other (op : String) : operatorClean op = "Other" := by
  unfold operatorClean
  cases h1 : strContains op.toLower "tesla" with
  | true =>
    simp only [afterTesla, h1, if_true]
    rfl
  | false =>
    simp only [afterTesla, h1, Bool.false_eq_true, if_false]
    cases h2 : strContains op.toLower "bp" with
    | true =>
      simp only [afterBP, h2, if_true]
      rfl
    | false =>
      simp only [afterBP, h2, Bool.false_eq_true, if_false]
      cases h3 : strContains op.toLower "shell" with
      | true =>
        simp only [afterShell, h3, if_true]
        rfl
      | false =>
        simp only [afterShell, h3, Bool.false_eq_true, if_false, isinFinal]
        rw [if_neg]
        rintro (hc | hc | hc)
        · rw [hc] at h1; exact absurd h1 (by decide)
        · rw [hc] at h2; exact absurd h2 (by decide)
        · rw [hc] at h3; exact absurd h3 (by decide)

/-- A cached binding survives appending entries on the right. -/
theorem lookupC_append_some (m l : List (String × String)) (k v : String)
    (h : lookupC m k = some v) : lookupC (m ++ l) k = some v := by
  induction m with
  | nil => simp [lookupC] at h
  | cons p rest ih =>
    by_cases hp : p.1 = k
    · simp [lookupC, hp] at h ⊢
      exact h
    · simp [lookupC, hp] at h ⊢
      exact ih h

/-- Appending a binding for an absent key makes it found. -/
theorem lookupC_append_fresh (m : List (String × String)) (k v : String)
    (h : lookupC m k = none) : lookupC (m ++ [(k, v)]) k = some v := by
  induction m with
  | nil => simp [lookupC]
  | cons p rest ih =>
    by_cases hp : p.1 = k
    · simp [lookupC, hp] at h
    · simp [lookupC, hp] at h ⊢
      exact ih h

/-- A cache hit returns the cached value and leaves the state untouched. -/
theorem gcc_hit (st : GeoState) (key : String) (o : GeoOutcome) (v : String)
    (h : lookupC st.cache key = some v) :
    get_city_cached st key o = (v, st) := by
  unfold get_city_cached
  rw [h]

/-- A cache miss with a failing lookup caches "Unknown" and returns it. -/
theorem gcc_miss_fail (st : GeoState) (key : String)
    (h : lookupC st.cache key = none) :
    get_city_cached st key GeoOutcome.fail
      = ("Unknown", ⟨st.cache ++ [(key, "Unknown")], st.disk,
                     st.lookups + 1⟩) := by
  unfold get_city_cached
  rw [h]

/-- On a cache miss the returned value is appended to the cache and exactly
one network lookup is issued, whatever the outcome. -/
theorem gcc_cache_of_miss (st : GeoState) (key : String) (o : GeoOutcome)
    (h : lookupC st.cache key = none) :
    (get_city_cached st key o).2.cache
      = st.cache ++ [(key, (get_city_cached st key o).1)]
    ∧ (get_city_cached st key o).2.lookups = st.lookups + 1 := by
  unfold get_city_cached
  rw [h]
  cases o with
  | fail => exact ⟨rfl, rfl⟩
  | found c t =>
    dsimp only
    split
    · exact ⟨rfl, rfl⟩
    · exact ⟨rfl, rfl⟩

/-- One `get_city_cached` call keeps the durable snapshot inside the cache
and never drops a previously flushed binding. -/
theorem gcc_preserves_disk (st : GeoState) (key : String) (o : GeoOutcome)
    (h : diskSub st) :
    diskSub (get_city_cached st key o).2
    ∧ ∀ k v, lookupC st.disk k = some v →
        lookupC (get_city_cached st key o).2.disk k = some v := by
  cases hl : lookupC st.cache key with
  | some v =>
    rw [gcc_hit st key o v hl]
    exact ⟨h, fun k v hv => hv⟩
  | none =>
    cases o with
    | fail =>
      rw [gcc_miss_fail st key hl]
      exact ⟨fun k v hv => lookupC_append_some _ _ _ _ (h k v hv),
             fun k v hv => hv⟩
    | found c t =>
      unfold get_city_cached
      rw [hl]
      dsimp only
      split
      · exact ⟨fun k v hv => hv,
               fun k v hv => lookupC_append_some _ _ _ _ (h k v hv)⟩
      · exact ⟨fun k v hv => lookupC_append_some _ _ _ _ (h k v hv),
               fun k v hv => hv⟩

/-- The per-row geocoding pass preserves the snapshot relation and never
drops a previously flushed binding. -/
theorem geocodeFold_preserves_disk (rows : List (String × GeoOutcome)) :
    ∀ st : GeoState, diskSub st →
    diskSub (geocodeFold st rows).2
    ∧ ∀ k v, lookupC st.disk k = some v →
        lookupC (geocodeFold st rows).2.disk k = some v := by
  induction rows with
  | nil => exact fun st h => ⟨h, fun k v hv => hv⟩
  | cons r rest ih =>
    intro st h
    have hstep := gcc_preserves_disk st r.1 r.2 h
    have hrec := ih (get_city_cached st r.1 r.2).2 hstep.1
    exact ⟨hrec.1, fun k v hv => hrec.2 k v (hstep.2 k v hv)⟩

/-- C1.  The claim is what the code comments intend, but the code breaks
it: the final `isin` guard on line 146 compares the capitalized
replacement values "Tesla"/"BP"/"Shell" against the lowercase literals
`["tesla", "bp", "shell"]`, so it matches no row and overwrites every
record with "Other".  In particular the record with operator string
"Tesla BP Supercharger" classifies as "Other", not "Tesla"; indeed every
operator string classifies as "Other". -/
theorem c1_operator_classification :
    operatorClean "Tesla BP Supercharger" = "Other"
    ∧ ∀ op : String, operatorClean op = "Other" :=
  ⟨operatorClean_eq_other "Tesla BP Supercharger", operatorClean_eq_other⟩

/-- C2.  Loading the same batch twice leaves storage in exactly the same
state as loading it once (same rows, hence same row count and field
values), for every prior connection state and even uniformly in the
insert-failure oracle: the second delete removes exactly the rows the
first insert added. -/
theorem c2_load_idempotent (st : DbState) (df : List NormalizedStation)
    (f : Bool) :
    load_to_db (load_to_db st df f).1 df f = load_to_db st df f := by
  cases f with
  | true => rfl
  | false =>
    have key : deleteIds (df.map (fun r => r.id))
          (deleteIds (df.map (fun r => r.id)) st.pending ++ df)
        = deleteIds (df.map (fun r => r.id)) st.pending := by
      rw [deleteIds_append, deleteIds_idem, deleteIds_self, List.append_nil]
    simp only [load_to_db, Bool.false_eq_true, if_false, key]

/-- C3.  The delete+insert pair is atomic with respect to the full batch:
starting from a connection with no transaction open, if `load_to_db`
raises (a StorageError from the insert) the committed storage state is
left fully intact, and if it returns normally the committed state is
exactly the prior rows minus the batch ids, followed by the full batch.
The failure case holds because Python's `sqlite3` keeps the DELETE inside
the implicit open transaction and pandas' insert wrapper rolls the whole
transaction back on failure. -/
theorem c3_load_atomic (st : DbState) (df : List NormalizedStation)
    (f : Bool) (h : st.pending = st.committed) :
    ((load_to_db st df f).2.isSome = true →
      (load_to_db st df f).1.committed = st.committed)
    ∧ ((load_to_db st df f).2 = none →
      (load_to_db st df f).1.committed
        = deleteIds (df.map (fun r => r.id)) st.committed ++ df) := by
  cases f with
  | true =>
    refine ⟨fun _ => rfl, fun hc => ?_⟩
    simp [load_to_db] at hc
  | false =>
    refine ⟨fun hc => ?_, fun _ => ?_⟩
    · simp [load_to_db] at hc
    · show deleteIds (df.map (fun r => r.id)) st.pending ++ df = _
      rw [h]

/-- Witness for C3 at a concrete input: a one-row table, a failing insert
of a different row; the committed state survives untouched. -/
theorem c3_load_atomic_witness :
    (load_to_db ⟨[sampleStation 1], [sampleStation 1]⟩ [sampleStation 2]
        true).1.committed = [sampleStation 1] :=
  (c3_load_atomic ⟨[sampleStation 1], [sampleStation 1]⟩ [sampleStation 2]
      true rfl).1 rfl

/-- C10, counterexample.  The claim asserts that an empty batch makes
`load_to_db` raise because the storage collaborator rejects the empty IN
list; in fact SQLite accepts `DELETE FROM stations WHERE id IN ()` as an
empty-set membership test matching nothing, so on a concrete one-row
store the call returns normally — no error is raised — and leaves the
store exactly as it was. -/
theorem c10_empty_batch_counterexample :
    load_to_db ⟨[sampleStation 1], [sampleStation 1]⟩ [] false
      = (⟨[sampleStation 1], [sampleStation 1]⟩, none) :=
  rfl

/-- C10, amended.  Calling `load_to_db` with an empty batch (zero records)
returns normally, loading zero records and leaving storage unchanged: the
delete step's empty IN list matches nothing and the insert appends
nothing. -/
theorem c10_empty_batch_noop (st : DbState) (h : st.pending = st.committed) :
    load_to_db st [] false = (st, none) := by
  have hs : (⟨st.pending, st.pending⟩ : DbState) = st := by
    cases st with
    | mk c p =>
      have h2 : p = c := h
      subst h2
      rfl
  calc load_to_db st [] false
      = (⟨st.pending, st.pending⟩, none) := by
        simp only [load_to_db, List.map_nil, deleteIds_nil, List.append_nil,
          Bool.false_eq_true, if_false]
    _ = (st, none) := by rw [hs]

/-- Witness for C10 (amended) at a concrete input: an empty batch over a
one-row store returns normally with the store untouched. -/
theorem c10_empty_batch_noop_witness :
    load_to_db ⟨[sampleStation 2], [sampleStation 2]⟩ [] false
      = (⟨[sampleStation 2], [sampleStation 2]⟩, none) :=
  c10_empty_batch_noop ⟨[sampleStation 2], [sampleStation 2]⟩ rfl

/-- C5.  `get_city_cached` never fails and its every outcome is cached: the
returned city is always bound to the key afterwards; calling again with the
same key returns the same value and leaves the state — lookup count
included — unchanged, so two calls issue at most one lookup in total (the
first call issues at most one); a hit returns the cached value with no
state change; and a failing first lookup yields "Unknown" and caches it,
so the failure is never retried while the cache lives. -/
theorem c5_resolver_cache (st : GeoState) (key : String)
    (o1 o2 : GeoOutcome) :
    lookupC (get_city_cached st key o1).2.cache key
      = some (get_city_cached st key o1).1
    ∧ get_city_cached (get_city_cached st key o1).2 key o2
        = get_city_cached st key o1
    ∧ (get_city_cached st key o1).2.lookups ≤ st.lookups + 1
    ∧ (∀ v, lookupC st.cache key = some v →
        get_city_cached st key o1 = (v, st))
    ∧ (o1 = GeoOutcome.fail → lookupC st.cache key = none →
        (get_city_cached st key o1).1 = "Unknown"
        ∧ lookupC (get_city_cached st key o1).2.cache key
            = some "Unknown") := by
  cases hl : lookupC st.cache key with
  | some v =>
    have e1 := gcc_hit st key o1 v hl
    refine ⟨?_, ?_, ?_, ?_, ?_⟩
    · rw [e1]
      exact hl
    · rw [e1]
      exact gcc_hit st key o2 v hl
    · rw [e1]
      exact Nat.le_succ _
    · intro v' hv'
      injection hv' with hvv
      rw [e1, hvv]
    · intro _ hn
      exact Option.noConfusion hn
  | none =>
    have hc := gcc_cache_of_miss st key o1 hl
    have h1 : lookupC (get_city_cached st key o1).2.cache key
        = some (get_city_cached st key o1).1 := by
      rw [hc.1]
      exact lookupC_append_fresh _ _ _ hl
    refine ⟨h1, ?_, ?_, ?_, ?_⟩
    · exact gcc_hit _ key o2 _ h1
    · rw [hc.2]
    · intro v hv
      exact Option.noConfusion hv
    · intro ho1 _
      subst ho1
      rw [gcc_miss_fail st key hl]
      exact ⟨rfl, lookupC_append_fresh _ _ _ hl⟩

/-- Witness for C5 at a concrete input: a failing lookup on an empty cache
leaves "Unknown" bound to the key. -/
theorem c5_resolver_cache_witness :
    lookupC (get_city_cached ⟨[], [], 0⟩ "31100,121400"
        GeoOutcome.fail).2.cache "31100,121400"
      = some (get_city_cached ⟨[], [], 0⟩ "31100,121400"
        GeoOutcome.fail).1 :=
  (c5_resolver_cache ⟨[], [], 0⟩ "31100,121400" GeoOutcome.fail
    GeoOutcome.fail).1

/-- C6, counterexample.  In the concrete pass `flushRun` (49 successful
lookups followed by one failed lookup, all on fresh keys, starting from an
empty cache) the code reaches a point where all 50 new entries are
unflushed and nothing has been written to durable storage: the length
check fires only in the success path, and the 50th entry is cached by the
failure path.  This refutes "at any point at most the most recent
fewer-than-50 uncommitted entries are unflushed". -/
theorem c6_flush_counterexample :
    (geocodeFold ⟨[], [], 0⟩ flushRun).2.cache.length = 50
    ∧ (geocodeFold ⟨[], [], 0⟩ flushRun).2.disk = []
    ∧ ¬ ((geocodeFold ⟨[], [], 0⟩ flushRun).2.cache.length
          - (geocodeFold ⟨[], [], 0⟩ flushRun).2.disk.length < 50) := by
  decide

/-- C6, amended.  The cache is dumped in full once more at the end of the
pass; no call ever drops a binding that reached durable storage (provided
the durable snapshot was itself a dump of an earlier cache); and the
periodic flush fires exactly when a successful lookup brings the total
cache size to a multiple of 50 — failed lookups never trigger it, so more
than 49 entries can be unflushed mid-pass. -/
theorem c6_flush_amended (st : GeoState)
    (rows : List (String × GeoOutcome)) (h : diskSub st) :
    (endFlush (geocodeFold st rows).2).disk
      = (endFlush (geocodeFold st rows).2).cache
    ∧ (∀ k v, lookupC st.disk k = some v →
        lookupC (endFlush (geocodeFold st rows).2).disk k = some v)
    ∧ (∀ (st2 : GeoState) (key : String) (c t : Option String),
        lookupC st2.cache key = none →
        (st2.cache.length + 1) % 50 = 0 →
        (get_city_cached st2 key (GeoOutcome.found c t)).2.disk
          = (get_city_cached st2 key (GeoOutcome.found c t)).2.cache) := by
  refine ⟨rfl, ?_, ?_⟩
  · intro k v hv
    have hf := geocodeFold_preserves_disk rows st h
    exact hf.1 k v (hf.2 k v hv)
  · intro st2 key c t hmiss hlen
    unfold get_city_cached
    rw [hmiss]
    dsimp only
    rw [if_pos]
    simpa using hlen

/-- Witness for C6 (amended) at a concrete input: a pre-flushed one-entry
cache survives the `flushRun` pass onto durable storage. -/
theorem c6_flush_amended_witness :
    lookupC (endFlush (geocodeFold ⟨[("a", "B")], [("a", "B")], 0⟩
        flushRun).2).disk "a" = some "B" :=
  (c6_flush_amended ⟨[("a", "B")], [("a", "B")], 0⟩ flushRun
    (fun k v hv => hv)).2.1 "a" "B" (by decide)

/-- Offline flag characterisation: true exactly on a defined day count
strictly above 90. -/
theorem isOffline_iff (d : Option Int) :
    isOffline d = true ↔ ∃ n, d = some n ∧ 90 < n := by
  cases d with
  | none => simp [isOffline]
  | some n => simp [isOffline]

/-- C4.  A day count of 90 is not offline, 91 is, an undefined day count
(absent or unparseable `last_updated`, i.e. `NaT`) is not; and for every
record produced by the transform, `is_offline` is true exactly when its
`days_since_update` is defined and strictly exceeds 90. -/
theorem c4_offline_threshold :
    isOffline (some 90) = false
    ∧ isOffline (some 91) = true
    ∧ isOffline none = false
    ∧ (∀ today : Int, isOffline (daysSinceUpdate today none) = false)
    ∧ (∀ (geo : String → GeoOutcome) (parse : String → Option Int)
        (today : Int) (st : GeoState) (df : List StationInfo)
        (out : List NormalizedStation × GeoState) (r : NormalizedStation),
        transform_stations geo parse today st df = Except.ok out →
        r ∈ out.1 →
        (r.is_offline = true ↔
          ∃ n, r.days_since_update = some n ∧ 90 < n)) := by
  refine ⟨by decide, by decide, rfl, fun _ => rfl, ?_⟩
  intro geo parse today st df out r hok hr
  simp only [transform_stations] at hok
  split at hok
  · exact Except.noConfusion hok
  · injection hok with hout
    subst hout
    obtain ⟨rc, _, hfr⟩ := List.mem_map.1 hr
    rw [← hfr]
    exact isOffline_iff _

/-- Witness for C4 at a concrete input: a 91-day-old record is offline. -/
theorem c4_offline_threshold_witness : isOffline (some 91) = true :=
  c4_offline_threshold.2.1

/-- C7.  Against the mocked listing API returning pages of 500, 500 and 0
records, extraction terminates normally (the empty page is end-of-data,
not an error), yields exactly 1000 records, and issues exactly the three
requests at offsets 0, 500 and 1000 — each successful page advancing the
offset by the 500-record page size. -/
theorem c7_pagination_termination :
    (extract_charging_stations mockApi none 10).map
      (fun r => (r.1.length, r.2)) = Except.ok (1000, [0, 500, 1000]) := by
  rfl

/-- C8.  The claim states the spec's intent, but the code errors on
exactly this input: the zero-record batch the pipeline builds is
`pd.DataFrame([])`, which carries no columns at all, so the first column
access in `transform_stations` — `drop_duplicates(subset=["id"])` on line
129 — raises `KeyError` for the missing `id` column (as `df["operator"]`
on line 134 also would).  The transform of an empty batch raises instead
of returning an empty output, for every oracle, date and prior cache
state. -/
theorem c8_transform_empty (geo : String → GeoOutcome)
    (parse : String → Option Int) (today : Int) (st : GeoState) :
    transform_stations geo parse today st [] = Except.error "KeyError: id" :=
  rfl

/-- C9.  Cache load at the start of a transform pass: a missing cache file
yields the empty cache and no error; an existing but malformed file is
fatal — the `json.load` error propagates, and in particular is never
silently replaced by an empty (or any other) successfully loaded cache;
an existing valid file loads its entries. -/
theorem c9_cache_load :
    loadGeocodeCache none = Except.ok []
    ∧ loadGeocodeCache (some CacheFile.malformed)
        = Except.error "json.decoder.JSONDecodeError"
    ∧ (∀ entries, loadGeocodeCache (some (CacheFile.valid entries))
        = Except.ok entries)
    ∧ ∀ entries, loadGeocodeCache (some CacheFile.malformed)
        ≠ Except.ok entries := by
  refine ⟨rfl, rfl, fun _ => rfl, fun entries hc => ?_⟩
  exact Except.noConfusion hc

end EvPipeline
